import Mathlib

/-!
Verification model of the automate rule-engine core (system.py and
extensions/arduino/arduino_service.py), shallowly embedded in Lean.

Each definition is translated from the corresponding Python source:
state is passed explicitly, fallible code returns `Except`, and the
file system touched by `System.save_state` is modelled as a map from
backup index to file content (`0` stands for `path` itself and `i > 0`
for the rotated backup `path.i`).
-/

namespace AutomateModel

/-! ### Snapshot load / create (system.py, `System.load_or_create`) -/

/-- Compiled-in statefile version (system.py line 55: `STATEFILE_VERSION = 1`). -/
def STATEFILE_VERSION : Nat := 1

/-- Content of a pickled snapshot file: the recorded statefile version, an
opaque token standing for the pickled object list, and the editable_config
mapping of name to status. -/
structure SnapFile where
  version : Nat
  objList : Nat
  config : List (String × Nat)
deriving DecidableEq

/-- A system object as seen by the persistence layer: its unique name, its
current status (opaque token) and the `user_editable` flag (absent attribute
modelled as `false`, matching `getattr(obj, 'user_editable', False)`). -/
structure SObj where
  name : String
  status : Nat
  user_editable : Bool
deriving DecidableEq

/-- System.__init__ lines 496-500: `for obj_name, status in load_config.items():
if hasattr(self, obj_name): getattr(self, obj_name).status = status`.
The namespace is the list of objects; an entry of the config whose name is
bound in the namespace overwrites that object's status, others are ignored. -/
def applyConfig (objs : List SObj) (cfg : List (String × Nat)) : List SObj :=
  cfg.foldl
    (fun acc p =>
      if acc.any (fun o => o.name == p.1) then
        acc.map (fun o => if o.name = p.1 then SObj.mk o.name p.2 o.user_editable else o)
      else acc)
    objs

/-- Failure modes of the load path. `fileNotFound` models `FileNotFoundError`
from `open`, `wrongVersion` the `RuntimeError('Wrong statefile version ...')`,
and `noAnswer` the interactive confirmation loop running out of input. -/
inductive LoadError where
  | fileNotFound
  | wrongVersion (v : Nat)
  | noAnswer
deriving DecidableEq

/-- Outcome of `load_or_create`: either a System built from a pickled object
list (`System(load_state=obj_list, ...)`) or a freshly created System whose
objects come from static definitions with the loaded config applied
(`cls(filename=filename, load_config=config, ...)`). -/
inductive LOCResult where
  | loaded (objList : Nat)
  | created (objs : List SObj)
deriving DecidableEq

/-- `load_pickle` (system.py lines 222-228): read `(statefile_version, data)`
from the file; raise if the version differs from `STATEFILE_VERSION`. -/
def load_pickle (file : Option SnapFile) : Except LoadError (Nat × List (String × Nat)) :=
  match file with
  | none => .error .fileNotFound
  | some f =>
    if f.version ≠ STATEFILE_VERSION then .error (.wrongVersion f.version)
    else .ok (f.objList, f.config)

/-- `load` (system.py lines 230-235): unpickle and build the System from the
stored object list; the stored config is read but not used on this path. -/
def loadPath (file : Option SnapFile) : Except LoadError LOCResult :=
  match load_pickle file with
  | .error e => .error e
  | .ok (objList, _) => .ok (.loaded objList)

/-- `create` (system.py lines 237-245): build a fresh System from static
definitions; when a filename is configured, try to read the editable config
out of the (possibly stale) snapshot, treating only `FileNotFoundError` as
"no config". `staticObjs` are the objects built from static definitions. -/
def createPath (filenameGiven : Bool) (file : Option SnapFile) (staticObjs : List SObj) :
    Except LoadError LOCResult :=
  if filenameGiven then
    match load_pickle file with
    | .ok (_, config) => .ok (.created (applyConfig staticObjs config))
    | .error .fileNotFound => .ok (.created staticObjs)
    | .error e => .error e
  else .ok (.created staticObjs)

/-- The interactive confirmation loop (system.py lines 254-259): read answers
until one is `y` (create) or `n` (load); an exhausted answer stream is the
`noAnswer` error. -/
def promptLoop (answers : List String) (file : Option SnapFile) (filenameGiven : Bool)
    (staticObjs : List SObj) : Except LoadError LOCResult :=
  match answers with
  | [] => .error .noAnswer
  | a :: rest =>
    if a = "y" then createPath filenameGiven file staticObjs
    else if a = "n" then loadPath file
    else promptLoop rest file filenameGiven staticObjs

/-- Effective `no_input` after CLI processing (system.py lines 209-215): the
parameter, or the `--no_input` flag, or the `--create_new` flag (which sets
`no_input = True` as well). -/
def effective_no_input (no_input args_no_input args_create_new : Bool) : Bool :=
  no_input || args_no_input || args_create_new

/-- Effective `create_new` after CLI processing (system.py lines 212-215):
the parameter or the `--create_new` flag. -/
def effective_create_new (create_new args_create_new : Bool) : Bool :=
  create_new || args_create_new

/-- `System.load_or_create` (system.py lines 199-261). `filenameGiven` is the
truthiness of `filename`, `file` the state of that path on disk (`none` when
`os.path.isfile` is false / `open` raises `FileNotFoundError`), `moreRecent`
the result of `savefile_more_recent()`, `answers` the interactive input
stream, and `staticObjs` the objects a fresh System would be built from. -/
def load_or_create (filenameGiven : Bool) (file : Option SnapFile) (moreRecent : Bool)
    (no_input args_no_input create_new args_create_new : Bool)
    (answers : List String) (staticObjs : List SObj) : Except LoadError LOCResult :=
  let ni := effective_no_input no_input args_no_input args_create_new
  let cn := effective_create_new create_new args_create_new
  if filenameGiven && file.isSome then
    if moreRecent && !cn then loadPath file
    else if ni then createPath filenameGiven file staticObjs
    else promptLoop answers file filenameGiven staticObjs
  else createPath filenameGiven file staticObjs

/-! ### Snapshot saving and backup rotation (system.py, `System.save_state`)

The file system is a map from backup index to file content: index `0` is
`self.filename` itself and index `i > 0` is the backup `'%s.%d' % (filename, i)`.
Contents are opaque tokens (`Nat`); `none` means the file does not exist. -/

/-- One iteration of the rotation loop (system.py lines 271-277):
`os.rename(fname, new_fname)` where `fname` is index `i` and `new_fname` is
index `i + 1`; a missing source (`FileNotFoundError`) is skipped, an existing
target is overwritten. -/
def renameStep (i : Nat) (fs : Nat → Option Nat) : Nat → Option Nat :=
  match fs i with
  | none => fs
  | some c => fun j => if j = i + 1 then some c else if j = i then none else fs j

/-- The whole rotation loop `for i in reversed(range(self.num_state_backups))`:
indices `num - 1, num - 2, ..., 0` are processed in that order. -/
def rotate : Nat → (Nat → Option Nat) → Nat → Option Nat
  | 0, fs => fs
  | n + 1, fs => rotate n (renameStep n fs)

/-- `System.save_state` (system.py lines 263-284) seen through its effect on
the snapshot files: with an empty filename it only logs an error (the Bool
component records that) and leaves the file system untouched; otherwise it
rotates the backups and writes the new snapshot (content token `content`)
to index 0. -/
def save_state (filename : String) (num : Nat) (content : Nat) (fs : Nat → Option Nat) :
    (Nat → Option Nat) × Bool :=
  if filename = "" then (fs, true)
  else ((fun j => if j = 0 then some content else rotate num fs j), false)

/-- `k` consecutive saves starting from an empty directory; the `k`-th save
writes content token `k`, so smaller tokens are older snapshots. -/
def iterSaves (filename : String) (num : Nat) : Nat → Nat → Option Nat
  | 0 => fun _ => none
  | k + 1 => (save_state filename num (k + 1) (iterSaves filename num k)).1

/-- The rotation loop as claimed by the specification: rename `path.N` to
`path.N+1` for `N` from the configured backup count down to `1` (not from
count minus one), then `path` to `path.1`. Written from the spec words to be
compared against `rotate`. -/
def rotateClaimAux : Nat → (Nat → Option Nat) → Nat → Option Nat
  | 0, fs => fs
  | n + 1, fs => rotateClaimAux n (renameStep (n + 1) fs)

/-- Save as described by the specification sentence, using `rotateClaimAux`
for indices `num ... 1` followed by the `path → path.1` rename. -/
def saveClaim (filename : String) (num content : Nat) (fs : Nat → Option Nat) :
    (Nat → Option Nat) × Bool :=
  if filename = "" then (fs, true)
  else ((fun j => if j = 0 then some content else renameStep 0 (rotateClaimAux num fs) j), false)

/-- Concrete pre-existing file system used to separate the code's rotation
from the spec's: the snapshot (index 0) and one backup (index 1) exist. -/
def exFs : Nat → Option Nat := fun j => if j = 0 then some 1 else if j = 1 then some 2 else none

/-- The editable-config comprehension of `save_state` (system.py lines 281-282):
`{obj.name: obj.status for obj in obj_list if getattr(obj, 'user_editable', False)}`. -/
def editable_config (objs : List SObj) : List (String × Nat) :=
  (objs.filter fun o => o.user_editable).map fun o => (o.name, o.status)

/-! ### Lock scope inside `save_state` (system.py lines 279-284)

`with open(self.filename, 'wb') as file, self.worker_thread.queue.mutex:`
enters the two context managers left to right, runs the body (object-list
copy, config comprehension, `pickle.dump`) and exits in reverse order. The
events of one `save_state` call are transcribed in program order. -/

/-- Events of a single `save_state` body, in execution order. -/
inductive SaveEvent where
  | openFile
  | acquireMutex
  | copyList
  | buildConfig
  | pickleDump
  | releaseMutex
  | closeFile
deriving DecidableEq

/-- Position of each event in the execution order of system.py lines 279-284:
the file is opened, then the queue mutex is acquired, then the body runs
(`obj_list = list(self.objects)`, the config comprehension, `pickle.dump`),
then the contexts exit in reverse order (mutex released, file closed). -/
def eventIndex : SaveEvent → Nat
  | .openFile => 0
  | .acquireMutex => 1
  | .copyList => 2
  | .buildConfig => 3
  | .pickleDump => 4
  | .releaseMutex => 5
  | .closeFile => 6

/-- An event happens while the queue mutex is held. -/
def insideMutex (e : SaveEvent) : Prop :=
  eventIndex .acquireMutex < eventIndex e ∧ eventIndex e < eventIndex .releaseMutex

instance : DecidablePred insideMutex := fun e => by
  unfold insideMutex; infer_instance

/-! ### Unique name generation (system.py, `System.get_unique_name`) -/

/-- Decimal rendering of a natural number (the `%d` of Python's string
formatting), via the base-10 digit list. -/
def natStr (n : Nat) : String :=
  if n = 0 then "0" else String.mk ((Nat.digits 10 n).reverse.map Nat.digitChar)

/-- The `%.2d` format: decimal rendering zero-padded to at least two digits. -/
def pad2 (c : Nat) : String :=
  if c < 10 then "0" ++ natStr c else natStr c

/-- Candidate name `u"%s_%.2d" % (newname, counter)` (system.py line 317). -/
def cand (base : String) (c : Nat) : String :=
  base ++ "_" ++ pad2 c

/-- Upper bound on the lengths of the names in the namespace. -/
def maxLen (ns : List String) : Nat :=
  ns.foldr (fun s m => max s.length m) 0

theorem length_le_maxLen : ∀ (ns : List String) (s : String), s ∈ ns → s.length ≤ maxLen ns := by
  intro ns
  induction ns with
  | nil => intro s h; cases h
  | cons a l ih =>
    intro s h
    rw [List.mem_cons] at h
    have hmax : maxLen (a :: l) = max a.length (maxLen l) := rfl
    rcases h with rfl | h
    · rw [hmax]; exact le_max_left _ _
    · rw [hmax]; exact le_trans (ih s h) (le_max_right _ _)

theorem natStr_length_pow (k : Nat) : (natStr (10 ^ (k + 1))).length = k + 2 := by
  have hne : (10 : Nat) ^ (k + 1) ≠ 0 := by positivity
  have h0 : 10 ^ (k + 1) ≠ 0 := hne
  rw [natStr, if_neg h0, String.length_mk, List.length_map, List.length_reverse,
    Nat.digits_len 10 _ (by norm_num) h0, Nat.log_pow (by norm_num)]

/-- There is always a counter whose candidate name is not yet registered:
a long enough candidate is longer than every registered name. -/
def cand_fresh_exists (ns : List String) (base : String) : ∃ c, cand base c ∉ ns := by
  refine ⟨10 ^ (maxLen ns + 1), fun hmem => ?_⟩
  have hlen : (cand base (10 ^ (maxLen ns + 1))).length ≤ maxLen ns :=
    length_le_maxLen ns _ hmem
  have hge : (10 : Nat) ≤ 10 ^ (maxLen ns + 1) := by
    calc (10 : Nat) = 10 ^ 1 := (pow_one 10).symm
    _ ≤ 10 ^ (maxLen ns + 1) := Nat.pow_le_pow_right (by norm_num) (by omega)
  have hpad : (pad2 (10 ^ (maxLen ns + 1))).length = maxLen ns + 2 := by
    rw [pad2, if_neg (by omega), natStr_length_pow]
  rw [cand, String.length_append, String.length_append, hpad] at hlen
  omega

/-- `System.get_unique_name` (system.py lines 300-320): take the explicit
name, else the system-supplied name, else `"Nameless_" + obj.__class__.__name__`;
if that name is free return it, otherwise probe counters 0, 1, 2, ... and
return the first candidate `"%s_%.2d"` that is not in the namespace. The
unbounded `while True` loop is embedded as the least satisfying counter. -/
def get_unique_name (ns : List String) (name nameFromSystem typeName : String) : String :=
  let newname :=
    if name = "" then
      (if nameFromSystem = "" then "Nameless_" ++ typeName else nameFromSystem)
    else name
  if newname ∈ ns then
    cand newname (Nat.find (cand_fresh_exists ns newname))
  else newname

/-! ### Arduino service (arduino_service.py) -/

/-- Errno value `os.errno.ENOENT` tested at arduino_service.py line 237. -/
def ENOENT : Nat := 2

/-- The service state fields that `setup` decides: whether `self._board` is
set, the `is_mocked` flag, and whether the mocked-mode warning was logged. -/
structure ArduinoState where
  board : Bool
  is_mocked : Bool
  warned : Bool
deriving DecidableEq

/-- `ArduinoService.setup` (arduino_service.py lines 225-259). `deviceReadable`
is `os.access(self.device, os.R_OK)`; `boardError` is `some errno` when the
`pyfirmata.Board` constructor raises `OSError(errno)` and `none` when it
succeeds (it is only reached when the device is readable). A missing or
unreadable device file raises `FileNotReadableError`, which is caught and
turns the service into mocked mode with a logged warning; an `OSError` with
`ENOENT` does the same; any other `OSError` is re-raised. -/
def setup (deviceReadable : Bool) (boardError : Option Nat) : Except Nat ArduinoState :=
  if deviceReadable = false then .ok (ArduinoState.mk false true true)
  else
    match boardError with
    | none => .ok (ArduinoState.mk true false false)
    | some errn =>
      if errn = ENOENT then .ok (ArduinoState.mk false true true)
      else .error errn

/-- Observable device commands emitted by the side-effecting operations. -/
inductive ArdAction where
  | pinWrite (pin value : Nat)
  | serialWrite (data : List Nat)
  | sysex (cmd : Nat) (data : List Nat)
deriving DecidableEq

/-- Sysex command id `SYSEX_VIRTUALWIRE_MESSAGE` (arduino_service.py line 43). -/
def SYSEX_VIRTUALWIRE_MESSAGE : Nat := 0

/-- `ArduinoService.change_digital` (lines 506-511): with no board it returns
before touching any pin; otherwise it writes the value to the pin. -/
def change_digital (st : ArduinoState) (pin value : Nat) : List ArdAction :=
  if st.board = false then [] else [ArdAction.pinWrite pin value]

/-- `ArduinoService.write` (lines 461-467): with no board nothing reaches the
serial port. -/
def ard_write (st : ArduinoState) (data : List Nat) : List ArdAction :=
  if st.board = false then [] else [ArdAction.serialWrite data]

/-- `ArduinoService.send_virtualwire_command` (lines 416-430): with no board
it returns immediately; otherwise it sends the sysex message built from the
home address, device address, recipient, command, and argument bytes. -/
def send_virtualwire_command (st : ArduinoState) (home dev recipient command : Nat)
    (args : List Nat) : List ArdAction :=
  if st.board = false then []
  else [ArdAction.sysex SYSEX_VIRTUALWIRE_MESSAGE ([home, dev, recipient, command] ++ args)]

/-- VirtualWire broadcast command codes (arduino_service.py lines 56-57). -/
def VIRTUALWIRE_DIGITAL_BROADCAST : Nat := 6

/-- Analog broadcast command code. -/
def VIRTUALWIRE_ANALOG_BROADCAST : Nat := 7

/-- A sensor subscribed to digital VirtualWire broadcasts: its pin and the
boolean status last set. -/
structure DigSensor where
  pin : Nat
  status : Bool
deriving DecidableEq

/-- A sensor subscribed to analog VirtualWire broadcasts: its pin and the
last status, an exact rational in place of the Python float `value/1023.`. -/
structure AnaSensor where
  pin : Nat
  status : ℚ
deriving DecidableEq

/-- The two subscription tables `_sens_virtualwire_digital` and
`_sens_virtualwire_analog`: defaultdicts from source device address to the
subscribed sensors. -/
structure VWState where
  digital : Nat → List DigSensor
  analog : Nat → List AnaSensor

/-- Empty subscription tables. -/
def emptyVWState : VWState := VWState.mk (fun _ => []) (fun _ => [])

/-- `ArduinoService._virtualwire_message_callback` (lines 437-459). For a
digital broadcast the payload must be exactly `(port_nr, value)` and each
subscribed sensor on that port gets the bit of `value` for its pin; for an
analog broadcast it must be `(pin, msb, lsb)` and matching sensors get
`((msb << 8) + lsb) / 1023`. A payload of any other length is logged as
broken data (second component `true`) and dropped without touching any
sensor. Other commands fall through. -/
def vw_callback (st : VWState) (sender command : Nat) (data : List Nat) : VWState × Bool :=
  if command = VIRTUALWIRE_DIGITAL_BROADCAST then
    match data with
    | [port_nr, value] =>
      (VWState.mk
        (fun a =>
          if a = sender then
            (st.digital sender).map fun s =>
              if port_nr = s.pin / 8 then
                DigSensor.mk s.pin (value &&& (1 <<< (s.pin % 8)) != 0)
              else s
          else st.digital a)
        st.analog, false)
    | _ => (st, true)
  else if command = VIRTUALWIRE_ANALOG_BROADCAST then
    match data with
    | [pin, msb, lsb] =>
      (VWState.mk st.digital
        (fun a =>
          if a = sender then
            (st.analog sender).map fun s =>
              if s.pin = pin then AnaSensor.mk s.pin ((((msb <<< 8) + lsb : Nat) : ℚ) / 1023)
              else s
          else st.analog a), false)
    | _ => (st, true)
  else (st, false)

/-! ### Command execution (system.py, `System.cmd_exec`) -/

/-- Outcome of `eval(cmd, ns)` together with the follow-up code in the same
`try` block (`setup_system`, calling the result): normal success, a
`SyntaxError` (switching to the `exec` path), the deliberate `ExitException`,
or any other exception. -/
inductive EvalOutcome where
  | ok
  | syntaxError
  | exitException
  | error
deriving DecidableEq

/-- Outcome of `exec(cmd, ns)` on the `SyntaxError` path. -/
inductive ExecOutcome where
  | ok
  | exitException
  | error
deriving DecidableEq

/-- What `cmd_exec` does for its caller: return `None` for an empty command,
return a boolean success flag, or let `ExitException` propagate. -/
inductive CmdResult where
  | noCmd
  | ret (b : Bool)
  | raisesExit
deriving DecidableEq

/-- `System.cmd_exec` (system.py lines 431-474): an empty command returns
`None`; a successful `eval` (or `exec` after a `SyntaxError`) returns `True`;
any other exception is caught, logged and turned into `False` — except
`ExitException`, which both handlers re-raise. -/
def cmd_exec (cmdEmpty : Bool) (ev : EvalOutcome) (ex : ExecOutcome) : CmdResult :=
  if cmdEmpty then .noCmd
  else
    match ev with
    | .ok => .ret true
    | .error => .ret false
    | .exitException => .raisesExit
    | .syntaxError =>
      match ex with
      | .ok => .ret true
      | .exitException => .raisesExit
      | .error => .ret false

/-! ### Lemmas about the rotation loop -/

theorem rotate_high (n : Nat) : ∀ (fs : Nat → Option Nat) (j : Nat), n < j → rotate n fs j = fs j := by
  induction n with
  | zero => intro fs j _; rfl
  | succ n ih =>
    intro fs j hj
    have hstep : renameStep n fs j = fs j := by
      unfold renameStep
      cases hfs : fs n with
      | none => rfl
      | some c =>
        simp only
        rw [if_neg (by omega), if_neg (by omega)]
    calc rotate (n + 1) fs j = rotate n (renameStep n fs) j := rfl
    _ = renameStep n fs j := ih _ _ (by omega)
    _ = fs j := hstep

theorem rotate_agree (n : Nat) :
    ∀ (fs gs : Nat → Option Nat), (∀ j, j ≤ n → fs j = gs j) →
      ∀ j, j ≤ n → rotate n fs j = rotate n gs j := by
  induction n with
  | zero => intro fs gs h j hj; exact h j hj
  | succ n ih =>
    intro fs gs h j hj
    have hstep : ∀ i, i ≤ n + 1 → renameStep n fs i = renameStep n gs i := by
      intro i hi
      unfold renameStep
      rw [h n (by omega)]
      cases gs n with
      | none => exact h i hi
      | some c =>
        simp only
        by_cases h1 : i = n + 1
        · rw [if_pos h1, if_pos h1]
        · rw [if_neg h1, if_neg h1]
          by_cases h2 : i = n
          · rw [if_pos h2, if_pos h2]
          · rw [if_neg h2, if_neg h2]; exact h i hi
    by_cases hcase : j ≤ n
    · exact ih _ _ (fun i hi => hstep i (by omega)) j hcase
    · have hj1 : j = n + 1 := by omega
      subst hj1
      calc rotate (n + 1) fs (n + 1) = rotate n (renameStep n fs) (n + 1) := rfl
      _ = renameStep n fs (n + 1) := rotate_high n _ _ (by omega)
      _ = renameStep n gs (n + 1) := hstep _ (by omega)
      _ = rotate n (renameStep n gs) (n + 1) := (rotate_high n _ _ (by omega)).symm
      _ = rotate (n + 1) gs (n + 1) := rfl

theorem rotate_prefilled (n : Nat) :
    ∀ (m : Nat) (f : Nat → Nat) (fs : Nat → Option Nat), m ≤ n + 1 →
      (∀ j, fs j = if j < m then some (f j) else none) →
      ∀ j, 1 ≤ j → rotate n fs j = if j ≤ min m n then some (f (j - 1)) else none := by
  induction n with
  | zero =>
    intro m f fs hm hfs j hj
    have : rotate 0 fs j = fs j := rfl
    rw [this, hfs j, if_neg (by omega), if_neg (by omega)]
  | succ n ih =>
    intro m f fs hm hfs j hj
    by_cases hcase : m ≤ n
    · have hfsn : fs n = none := by rw [hfs n]; exact if_neg (by omega)
      have hstep : renameStep n fs = fs := by unfold renameStep; rw [hfsn]
      have : rotate (n + 1) fs j = rotate n fs j := by
        show rotate n (renameStep n fs) j = rotate n fs j
        rw [hstep]
      rw [this, ih m f fs (by omega) hfs j hj]
      have hmin : min m n = min m (n + 1) := by omega
      rw [hmin]
    · have hnm : n < m := by omega
      have hfsn : fs n = some (f n) := by rw [hfs n]; exact if_pos hnm
      have hstep : renameStep n fs =
          fun i => if i = n + 1 then some (f n) else if i = n then none else fs i := by
        unfold renameStep; rw [hfsn]
      have hmin : min m (n + 1) = n + 1 := by omega
      rcases Nat.lt_trichotomy j (n + 1) with hlt | heq | hgt
      · -- 1 ≤ j ≤ n : compare with the namespace prefilled up to n
        have hagree : ∀ i, i ≤ n → renameStep n fs i =
            (fun i => if i < n then some (f i) else none) i := by
          intro i hi
          rw [hstep]
          simp only
          by_cases h2 : i = n
          · rw [if_neg (by omega), if_pos h2, if_neg (by omega)]
          · rw [if_neg (by omega), if_neg h2, hfs i, if_pos (by omega), if_pos (by omega)]
        have : rotate (n + 1) fs j = rotate n (renameStep n fs) j := rfl
        rw [this,
          rotate_agree n _ _ hagree j (by omega),
          ih n f _ (by omega) (fun i => rfl) j hj]
        rw [if_pos (by omega), if_pos (by omega)]
      · subst heq
        have h2 : rotate (n + 1) fs (n + 1) = renameStep n fs (n + 1) := by
          show rotate n (renameStep n fs) (n + 1) = renameStep n fs (n + 1)
          exact rotate_high n _ _ (by omega)
        rw [h2, hstep]
        simp only [if_pos rfl]
        rw [hmin, if_pos (le_refl (n + 1))]
        have h3 : n + 1 - 1 = n := by omega
        rw [h3]
        simp
      · have : rotate (n + 1) fs j = renameStep n fs j := by
          show rotate n (renameStep n fs) j = renameStep n fs j
          exact rotate_high n _ _ (by omega)
        rw [this, hstep]
        simp only
        rw [if_neg (by omega), if_neg (by omega), hfs j, if_neg (by omega), if_neg (by omega)]

theorem iterSaves_char (filename : String) (hf : filename ≠ "") (num : Nat) :
    ∀ k, 1 ≤ k → ∀ j,
      iterSaves filename num k j = if j ≤ min (k - 1) num then some (k - j) else none := by
  intro k
  induction k with
  | zero => intro h; omega
  | succ k ih =>
    intro _ j
    have hsave : iterSaves filename num (k + 1) j =
        if j = 0 then some (k + 1) else rotate num (iterSaves filename num k) j := by
      show (save_state filename num (k + 1) (iterSaves filename num k)).1 j = _
      rw [save_state, if_neg hf]
    by_cases hk : k = 0
    · subst hk
      rcases Nat.eq_zero_or_pos j with hj | hj
      · subst hj
        rw [hsave, if_pos rfl, if_pos (by omega)]
      · have hrot : rotate num (iterSaves filename num 0) j = none := by
          have := rotate_prefilled num 0 (fun i => i) (iterSaves filename num 0)
            (by omega) (fun i => by rw [if_neg (by omega)]; rfl) j (by omega)
          rw [this, if_neg (by omega)]
        rw [hsave, if_neg (by omega), hrot, if_neg (by omega)]
    · have hk1 : 1 ≤ k := by omega
      have hpre : ∀ i, iterSaves filename num k i =
          if i < min k (num + 1) then some ((fun t => k - t) i) else none := by
        intro i
        rw [ih hk1 i]
        by_cases h1 : i ≤ min (k - 1) num
        · rw [if_pos h1, if_pos (by omega)]
        · rw [if_neg h1, if_neg (by omega)]
      rcases Nat.eq_zero_or_pos j with hj | hj
      · subst hj
        rw [hsave, if_pos rfl, if_pos (by omega)]
        rfl
      · have hrot := rotate_prefilled num (min k (num + 1)) (fun t => k - t)
          (iterSaves filename num k) (by omega) hpre j (by omega)
        rw [hsave, if_neg (by omega), hrot]
        by_cases h1 : j ≤ min (min k (num + 1)) num
        · rw [if_pos h1, if_pos (by omega)]
          show some (k - (j - 1)) = some (k + 1 - j)
          congr 1
          omega
        · rw [if_neg h1, if_neg (by omega)]

/-! ### Claim theorems -/

/-- C1: for every snapshot file whose recorded statefile version differs from
the compiled-in STATEFILE_VERSION, load_or_create never returns a System (no
`.ok` outcome, on any path); whenever input is suppressed, and also on the
direct load path, it fails with the wrong-version fatal error. -/
theorem load_wrong_version_fatal (f : SnapFile) (moreRecent ni ani cn acn : Bool)
    (answers : List String) (objs : List SObj)
    (hv : f.version ≠ STATEFILE_VERSION) :
    (∀ r, load_or_create true (some f) moreRecent ni ani cn acn answers objs ≠ .ok r) ∧
    (effective_no_input ni ani acn = true →
      load_or_create true (some f) moreRecent ni ani cn acn answers objs
        = .error (.wrongVersion f.version)) ∧
    (moreRecent = true → effective_create_new cn acn = false →
      load_or_create true (some f) moreRecent ni ani cn acn answers objs
        = .error (.wrongVersion f.version)) := by
  have hlp : load_pickle (some f) = .error (.wrongVersion f.version) := by
    simp [load_pickle, hv]
  have hload : loadPath (some f) = Except.error (LoadError.wrongVersion f.version) := by
    simp [loadPath, hlp]
  have hcreate : createPath true (some f) objs
      = Except.error (LoadError.wrongVersion f.version) := by
    simp [createPath, hlp]
  have hprompt : ∀ ans : List String,
      promptLoop ans (some f) true objs = Except.error (LoadError.wrongVersion f.version) ∨
      promptLoop ans (some f) true objs = Except.error LoadError.noAnswer := by
    intro ans
    induction ans with
    | nil => right; rfl
    | cons a rest ih =>
      by_cases h1 : a = "y"
      · left; simp [promptLoop, h1, hcreate]
      · by_cases h2 : a = "n"
        · left; simp [promptLoop, h1, h2, hload]
        · simpa [promptLoop, h1, h2] using ih
  refine ⟨?_, ?_, ?_⟩
  · intro r
    rcases hprompt answers with hp | hp <;>
      cases moreRecent <;> cases ni <;> cases ani <;> cases cn <;> cases acn <;>
        simp [load_or_create, effective_no_input, effective_create_new, hload, hcreate, hp]
  · intro hni
    cases moreRecent <;> cases ni <;> cases ani <;> cases cn <;> cases acn <;>
      simp_all [load_or_create, effective_no_input, effective_create_new, hload, hcreate]
  · intro hmr hcn
    cases moreRecent <;> cases ni <;> cases ani <;> cases cn <;> cases acn <;>
      simp_all [load_or_create, effective_no_input, effective_create_new, hload, hcreate]

/-- Witness for C1 at a concrete mismatched snapshot (version 2 against
compiled version 1), with `no_input` given. -/
theorem load_wrong_version_fatal_witness :
    (SnapFile.mk 2 7 []).version ≠ STATEFILE_VERSION ∧
    load_or_create true (some (SnapFile.mk 2 7 [])) true true false false false [] []
      = Except.error (LoadError.wrongVersion 2) := by
  refine ⟨by decide, ?_⟩
  exact (load_wrong_version_fatal (SnapFile.mk 2 7 []) true true false false false [] []
    (by decide)).2.1 rfl

/-- C2 (amended): with a filename whose file exists and a matching statefile
version, (i) if the file is newer than the script and create_new is not in
force the snapshot is loaded; (ii) if the file is stale or create_new is in
force and no_input is in force, a fresh system is built from the static
definitions with the editable config of the stale snapshot applied; (iii)
the `--create_new` command-line flag forces no_input; (iv) but the
`create_new` parameter alone does not: without effective no_input the call
goes to the interactive prompt. -/
theorem load_or_create_decision (f : SnapFile) (moreRecent ni ani cn acn : Bool)
    (answers : List String) (objs : List SObj)
    (hv : f.version = STATEFILE_VERSION) :
    (moreRecent = true → effective_create_new cn acn = false →
      load_or_create true (some f) moreRecent ni ani cn acn answers objs
        = .ok (.loaded f.objList)) ∧
    (effective_no_input ni ani acn = true →
      (moreRecent = false ∨ effective_create_new cn acn = true) →
      load_or_create true (some f) moreRecent ni ani cn acn answers objs
        = .ok (.created (applyConfig objs f.config))) ∧
    (effective_no_input ni ani true = true) ∧
    (effective_no_input ni ani acn = false → effective_create_new cn acn = true →
      load_or_create true (some f) moreRecent ni ani cn acn answers objs
        = promptLoop answers (some f) true objs) := by
  have hlp : load_pickle (some f) = .ok (f.objList, f.config) := by
    simp [load_pickle, hv]
  have hload : loadPath (some f) = Except.ok (LOCResult.loaded f.objList) := by
    simp [loadPath, hlp]
  have hcreate : createPath true (some f) objs
      = Except.ok (LOCResult.created (applyConfig objs f.config)) := by
    simp [createPath, hlp]
  refine ⟨?_, ?_, ?_, ?_⟩
  · intro hmr hcn
    cases moreRecent <;> cases ni <;> cases ani <;> cases cn <;> cases acn <;>
      simp_all [load_or_create, effective_no_input, effective_create_new, hload, hcreate]
  · intro hni hmr
    rcases hmr with hmr | hmr <;>
      cases moreRecent <;> cases ni <;> cases ani <;> cases cn <;> cases acn <;>
        simp_all [load_or_create, effective_no_input, effective_create_new, hload, hcreate]
  · simp [effective_no_input]
  · intro hni hcn
    cases moreRecent <;> cases ni <;> cases ani <;> cases cn <;> cases acn <;>
      simp_all [load_or_create, effective_no_input, effective_create_new]

/-- Counterexample for C2 as stated: passing `create_new = True` as a
parameter (without the `--create_new` command-line flag) does not force
`no_input` — with a fresh valid snapshot on disk the call drops into the
interactive prompt instead of rebuilding, and with no input available it
fails rather than returning a created system. -/
theorem create_new_param_prompts :
    load_or_create true (some (SnapFile.mk 1 7 [])) true false false true false [] []
      = Except.error LoadError.noAnswer := rfl

/-- Witness for C2 at a concrete stale snapshot with `no_input` given: the
fresh system is built from the static objects with the stored editable
config applied. -/
theorem load_or_create_decision_witness :
    (SnapFile.mk 1 7 [("a", 5)]).version = STATEFILE_VERSION ∧
    load_or_create true (some (SnapFile.mk 1 7 [("a", 5)])) false true false false false []
        [SObj.mk "a" 0 true]
      = Except.ok (LOCResult.created (applyConfig [SObj.mk "a" 0 true] [("a", 5)])) := by
  refine ⟨rfl, ?_⟩
  exact (load_or_create_decision (SnapFile.mk 1 7 [("a", 5)]) false true false false false []
    [SObj.mk "a" 0 true] rfl).2.1 rfl (Or.inl rfl)

/-- C3 (amended): the rotation loop renames `path.N` to `path.N+1` for `N`
from the configured backup count minus one down to 1, then `path` to
`path.1`; consequently after `k` saves with backup count `num` exactly
`min k (num + 1)` files exist — indices `0 ≤ j < min k (num + 1)` — with the
newest snapshot at `path` (index 0) and, once saturated, the oldest at
`path.num`. -/
theorem backup_rotation_behavior (filename : String) (num k : Nat)
    (hf : filename ≠ "") (hk : 1 ≤ k) :
    (∀ j, (iterSaves filename num k j).isSome = true ↔ j < min k (num + 1)) ∧
    iterSaves filename num k 0 = some k ∧
    (num + 1 ≤ k → iterSaves filename num k num = some (k - num)) ∧
    (∀ j, j < min k (num + 1) → iterSaves filename num k j = some (k - j)) := by
  have hchar := iterSaves_char filename hf num k hk
  refine ⟨?_, ?_, ?_, ?_⟩
  · intro j
    rw [hchar j]
    by_cases h1 : j ≤ min (k - 1) num
    · rw [if_pos h1]; simp; omega
    · rw [if_neg h1]; simp; omega
  · rw [hchar 0, if_pos (by omega)]
    rfl
  · intro hnk
    rw [hchar num, if_pos (by omega)]
  · intro j hj
    rw [hchar j, if_pos (by omega)]

/-- Witness for C3 with backup count 2 after 5 saves: files at `path`,
`path.1`, `path.2` hold the three newest snapshots and `path.3` is absent. -/
theorem backup_rotation_behavior_witness :
    iterSaves "s" 2 5 0 = some 5 ∧ iterSaves "s" 2 5 2 = some 3 ∧
    ((iterSaves "s" 2 5 3).isSome = true ↔ 3 < min 5 3) := by
  refine ⟨?_, ?_, (backup_rotation_behavior "s" 2 5 (by decide) (by decide)).1 3⟩
  · exact (backup_rotation_behavior "s" 2 5 (by decide) (by decide)).2.1
  · exact (backup_rotation_behavior "s" 2 5 (by decide) (by decide)).2.2.1 (by decide)

/-- Counterexample for C3 as stated: the spec's rotation (renaming `path.N`
to `path.N+1` for `N` from the backup count down to 1) would leave a file at
`path.2` with backup count 1, while the code's loop (which starts at the
count minus one) does not. -/
theorem rotation_claim_divergence :
    (save_state "f" 1 99 exFs).1 2 = none ∧ (saveClaim "f" 1 99 exFs).1 2 = some 2 := by
  constructor <;> decide

/-- C10: with an empty filename, save_state only logs an error (the `true`
flag) and leaves every file untouched: no backup is renamed and no snapshot
is written. -/
theorem save_state_no_filename_noop (num content : Nat) (fs : Nat → Option Nat) :
    save_state "" num content fs = (fs, true) := by
  simp [save_state]

/-- C4: the editable_config mapping written by save_state holds exactly the
(name, status) pairs of the objects whose user_editable flag is true; under
the namespace uniqueness invariant no non-editable object contributes any
entry. -/
theorem editable_config_exact (objs : List SObj) :
    (∀ n s, (n, s) ∈ editable_config objs ↔
      ∃ o, o ∈ objs ∧ o.user_editable = true ∧ o.name = n ∧ o.status = s) ∧
    ((objs.map SObj.name).Nodup →
      ∀ o, o ∈ objs → o.user_editable = false → ∀ s, (o.name, s) ∉ editable_config objs) := by
  have hiff : ∀ n s, (n, s) ∈ editable_config objs ↔
      ∃ o, o ∈ objs ∧ o.user_editable = true ∧ o.name = n ∧ o.status = s := by
    intro n s
    simp only [editable_config, List.mem_map, List.mem_filter, Prod.mk.injEq]
    constructor
    · rintro ⟨o, ⟨ho, hp⟩, hn, hs⟩
      exact ⟨o, ho, hp, hn, hs⟩
    · rintro ⟨o, ho, hp, hn, hs⟩
      exact ⟨o, ⟨ho, hp⟩, hn, hs⟩
  refine ⟨hiff, ?_⟩
  intro hnd o ho hne s hmem
  rcases (hiff o.name s).mp hmem with ⟨o2, ho2, hed, hn2, _⟩
  have : o2 = o := List.inj_on_of_nodup_map hnd ho2 ho hn2
  rw [this] at hed
  rw [hed] at hne
  cases hne

/-- Witness for C4 on a concrete object list: the editable object appears in
the config with its status, and the non-editable one contributes nothing. -/
theorem editable_config_exact_witness :
    (("a", 5) ∈ editable_config [SObj.mk "a" 5 true, SObj.mk "b" 9 false] ↔
      ∃ o, o ∈ [SObj.mk "a" 5 true, SObj.mk "b" 9 false] ∧ o.user_editable = true ∧
        o.name = "a" ∧ o.status = 5) ∧
    ((SObj.mk "b" 9 false).name, 9) ∉
      editable_config [SObj.mk "a" 5 true, SObj.mk "b" 9 false] := by
  refine ⟨(editable_config_exact [SObj.mk "a" 5 true, SObj.mk "b" 9 false]).1 "a" 5, ?_⟩
  exact (editable_config_exact [SObj.mk "a" 5 true, SObj.mk "b" 9 false]).2 (by decide)
    (SObj.mk "b" 9 false) (by decide) rfl 9

/-- Counterexample for C5 as stated: `pickle.dump` — the serialization and
disk write of the snapshot — happens between the acquisition and the release
of the queue mutex, not outside the guarded section. -/
theorem dump_inside_mutex : insideMutex SaveEvent.pickleDump := by decide

/-- C5 (amended): the queue mutex guards not only the object-list copy but
the whole snapshot body: list copy, config construction and the pickle
serialization/disk write all happen inside the guarded section (only the
file open and close fall outside), so producers stay blocked for the
duration of the disk write. -/
theorem mutex_scope_in_save :
    insideMutex SaveEvent.copyList ∧ insideMutex SaveEvent.buildConfig ∧
    insideMutex SaveEvent.pickleDump ∧ ¬ insideMutex SaveEvent.openFile ∧
    ¬ insideMutex SaveEvent.closeFile := by decide

/-- C6: an object with no explicit name gets `"Nameless_" + type`; if that
collides, numeric suffixes are probed from 0 upward and the first free
candidate is returned, so the returned name is never already registered. -/
theorem unique_name_generation (ns : List String) (typeName : String) :
    get_unique_name ns "" "" typeName ∉ ns ∧
    (("Nameless_" ++ typeName) ∉ ns →
      get_unique_name ns "" "" typeName = "Nameless_" ++ typeName) ∧
    (("Nameless_" ++ typeName) ∈ ns →
      ∃ c, get_unique_name ns "" "" typeName = cand ("Nameless_" ++ typeName) c ∧
        cand ("Nameless_" ++ typeName) c ∉ ns ∧
        ∀ d, d < c → cand ("Nameless_" ++ typeName) d ∈ ns) := by
  have hbase : get_unique_name ns "" "" typeName =
      (if ("Nameless_" ++ typeName) ∈ ns then
        cand ("Nameless_" ++ typeName)
          (Nat.find (cand_fresh_exists ns ("Nameless_" ++ typeName)))
      else "Nameless_" ++ typeName) := rfl
  refine ⟨?_, ?_, ?_⟩
  · rw [hbase]
    by_cases h : ("Nameless_" ++ typeName) ∈ ns
    · rw [if_pos h]
      exact Nat.find_spec (cand_fresh_exists ns ("Nameless_" ++ typeName))
    · rw [if_neg h]; exact h
  · intro h
    rw [hbase, if_neg h]
  · intro h
    refine ⟨Nat.find (cand_fresh_exists ns ("Nameless_" ++ typeName)), ?_,
      Nat.find_spec (cand_fresh_exists ns ("Nameless_" ++ typeName)), ?_⟩
    · rw [hbase, if_pos h]
    · intro d hd
      have hmin := Nat.find_min (cand_fresh_exists ns ("Nameless_" ++ typeName)) hd
      exact not_not.mp hmin

/-- Witness for C6: with `Nameless_Foo` taken the generated name avoids the
namespace; with an empty namespace the default name is returned as is. -/
theorem unique_name_generation_witness :
    get_unique_name ["Nameless_Foo"] "" "" "Foo" ∉ ["Nameless_Foo"] ∧
    get_unique_name [] "" "" "Bar" = "Nameless_Bar" :=
  ⟨(unique_name_generation ["Nameless_Foo"] "Foo").1,
   (unique_name_generation [] "Bar").2.1 (by decide)⟩

/-- C7: when the Arduino device file is missing or unreadable (os.access
false), or the board constructor fails with ENOENT, setup succeeds in mocked
mode — warning logged, no board — and every subsequent side-effecting
operation emits nothing to the hardware. -/
theorem arduino_setup_degrades_to_mock (deviceReadable : Bool) (boardError : Option Nat)
    (h : deviceReadable = false ∨ boardError = some ENOENT) :
    ∃ st, setup deviceReadable boardError = .ok st ∧ st.board = false ∧
      st.is_mocked = true ∧ st.warned = true ∧
      (∀ pin v, change_digital st pin v = []) ∧
      (∀ d, ard_write st d = []) ∧
      (∀ home dev r c args, send_virtualwire_command st home dev r c args = []) := by
  refine ⟨ArduinoState.mk false true true, ?_, rfl, rfl, rfl, fun _ _ => rfl, fun _ => rfl,
    fun _ _ _ _ _ => rfl⟩
  rcases h with h | h
  · subst h; rfl
  · subst h
    cases deviceReadable
    · rfl
    · rfl

/-- Witness for C7 at a concrete unavailable device. -/
theorem arduino_setup_degrades_to_mock_witness :
    ∃ st, setup false none = .ok st ∧ st.board = false ∧
      st.is_mocked = true ∧ st.warned = true ∧
      (∀ pin v, change_digital st pin v = []) ∧
      (∀ d, ard_write st d = []) ∧
      (∀ home dev r c args, send_virtualwire_command st home dev r c args = []) :=
  arduino_setup_degrades_to_mock false none (Or.inl rfl)

/-- C8: a VirtualWire digital broadcast whose payload length is not 2, and an
analog broadcast whose payload length is not 3, are logged as broken data and
dropped: the subscription tables — and so every sensor status — are returned
unchanged, and the handler returns normally. -/
theorem virtualwire_malformed_dropped (st : VWState) (sender : Nat) (data : List Nat) :
    (data.length ≠ 2 → vw_callback st sender VIRTUALWIRE_DIGITAL_BROADCAST data = (st, true)) ∧
    (data.length ≠ 3 → vw_callback st sender VIRTUALWIRE_ANALOG_BROADCAST data = (st, true)) := by
  constructor
  · intro h
    rcases data with _ | ⟨a, _ | ⟨b, _ | ⟨c, rest⟩⟩⟩
    · rfl
    · rfl
    · exact absurd rfl h
    · rfl
  · intro h
    rcases data with _ | ⟨a, _ | ⟨b, _ | ⟨c, _ | ⟨d, rest⟩⟩⟩⟩
    · rfl
    · rfl
    · rfl
    · exact absurd rfl h
    · rfl

/-- Witness for C8: a one-byte payload is dropped for both broadcast kinds
with empty subscription tables returned untouched. -/
theorem virtualwire_malformed_dropped_witness :
    vw_callback emptyVWState 0 VIRTUALWIRE_DIGITAL_BROADCAST [5] = (emptyVWState, true) ∧
    vw_callback emptyVWState 0 VIRTUALWIRE_ANALOG_BROADCAST [5] = (emptyVWState, true) :=
  ⟨(virtualwire_malformed_dropped emptyVWState 0 [5]).1 (by decide),
   (virtualwire_malformed_dropped emptyVWState 0 [5]).2 (by decide)⟩

/-- Counterexample for C9 as stated: a command that raises the deliberate
ExitException makes cmd_exec re-raise instead of returning a boolean — the
exception propagates out of cmd_exec. -/
theorem cmd_exec_exit_propagates :
    cmd_exec false EvalOutcome.exitException ExecOutcome.ok = CmdResult.raisesExit := rfl

/-- C9 (amended): every failure of evaluation or execution other than the
deliberate ExitException is caught and reported as the boolean False, success
as True; cmd_exec lets an exception propagate exactly when the command raises
ExitException (directly or on the exec path). -/
theorem cmd_exec_reports_bool (ev : EvalOutcome) (ex : ExecOutcome) :
    (ev = EvalOutcome.error → cmd_exec false ev ex = CmdResult.ret false) ∧
    (ev = EvalOutcome.syntaxError → ex = ExecOutcome.error →
      cmd_exec false ev ex = CmdResult.ret false) ∧
    (ev = EvalOutcome.ok → cmd_exec false ev ex = CmdResult.ret true) ∧
    (ev = EvalOutcome.syntaxError → ex = ExecOutcome.ok →
      cmd_exec false ev ex = CmdResult.ret true) ∧
    (cmd_exec false ev ex = CmdResult.raisesExit ↔
      (ev = EvalOutcome.exitException ∨
        (ev = EvalOutcome.syntaxError ∧ ex = ExecOutcome.exitException))) := by
  cases ev <;> cases ex <;> decide

/-- Witness for C9 at a concrete failing command. -/
theorem cmd_exec_reports_bool_witness :
    cmd_exec false EvalOutcome.error ExecOutcome.ok = CmdResult.ret false :=
  (cmd_exec_reports_bool EvalOutcome.error ExecOutcome.ok).1 rfl

end AutomateModel
